import Mathlib

/-!
Verification of `lab_5_scrapper/scrapper.py`: a shallow embedding of the
configuration loader/validator, the HTTP fetch wrapper, the environment
preparer and the link discoverer, with theorems about the specified
properties.

Python JSON values are modelled by `PyVal`; numbers that are not integers
are carried as exact rationals (every literal appearing in the claims is
exactly representable). Python exceptions are modelled by `Except`.
-/

/-- A Python value as loaded from the crawler configuration JSON file. -/
inductive PyVal where
  | pyInt (n : Int)
  | pyNum (q : ℚ)
  | pyStr (s : String)
  | pyBool (b : Bool)
  | pyList (xs : List PyVal)
  | pyDict (entries : List (String × PyVal))
  | pyNone

/-- Python exceptions relevant to `scrapper.py`'s validation code:
`raise Exception('...')` with a message, plus the built-in `TypeError`
(unorderable comparison) and `AttributeError` (missing method). -/
inductive PyError where
  | exn (msg : String)
  | typeError
  | attributeError
deriving DecidableEq

/-- Python `isinstance(v, int)`: true for `int` and for `bool`
(which is a subclass of `int` in Python). -/
def isInstInt : PyVal → Bool
  | .pyInt _ => true
  | .pyBool _ => true
  | _ => false

/-- Python `isinstance(v, bool)`. -/
def isInstBool : PyVal → Bool
  | .pyBool _ => true
  | _ => false

/-- Python `isinstance(v, dict)`. -/
def isInstDict : PyVal → Bool
  | .pyDict _ => true
  | _ => false

/-- Python `isinstance(v, str)`. -/
def isInstStr : PyVal → Bool
  | .pyStr _ => true
  | _ => false

/-- The numeric value of a Python value when it is comparable with an
`int` (ints, floats, and bools, which compare as 0/1). -/
def asNum : PyVal → Option ℚ
  | .pyInt n => some (n : ℚ)
  | .pyNum q => some q
  | .pyBool b => some (if b then 1 else 0)
  | _ => none

/-- Python `v < k` for an integer literal `k`: raises `TypeError` when `v`
is not numeric. -/
def pyLt (v : PyVal) (k : Int) : Except PyError Bool :=
  match asNum v with
  | some q => .ok (decide (q < (k : ℚ)))
  | none => .error .typeError

/-- Python `v > k` for an integer literal `k`: raises `TypeError` when `v`
is not numeric. -/
def pyGt (v : PyVal) (k : Int) : Except PyError Bool :=
  match asNum v with
  | some q => .ok (decide ((k : ℚ) < q))
  | none => .error .typeError

/-- Character-list prefix test (kernel-computable model of
`str.startswith` for one candidate). -/
def listStartsWith : List Char → List Char → Bool
  | _, [] => true
  | [], _ :: _ => false
  | c :: cs, p :: ps => (c == p) && listStartsWith cs ps

/-- `s.startswith(p)` on strings. -/
def strStartsWith (s p : String) : Bool := listStartsWith s.toList p.toList

/-- Python `seed.startswith(('https://www.', 'http://www.'))`: raises
`AttributeError` when the receiver is not a string. -/
def pyStartsWithWWW : PyVal → Except PyError Bool
  | .pyStr s => .ok (strStartsWith s "https://www." || strStartsWith s "http://www.")
  | _ => .error .attributeError

/-- Python iteration over a value, as used by
`for seed in config.seed_urls`: lists yield their elements, strings their
characters (as one-character strings), dicts their keys; other values
raise `TypeError`. -/
def iterElems : PyVal → Except PyError (List PyVal)
  | .pyList xs => .ok xs
  | .pyStr s => .ok (s.toList.map fun c => .pyStr (String.singleton c))
  | .pyDict es => .ok (es.map fun e => .pyStr e.1)
  | _ => .error .typeError

/-- Python `all(seed.startswith(('https://www.', 'http://www.')) for seed
in ...)`: short-circuits at the first `False`; an exception raised while
testing an element propagates. -/
def allSeedsOk : List PyVal → Except PyError Bool
  | [] => .ok true
  | v :: vs =>
    match pyStartsWithWWW v with
    | .error e => .error e
    | .ok false => .ok false
    | .ok true => allSeedsOk vs

/-- The raw configuration structure, one field per key of the crawler
config file, exactly the fields `_extract_config_content` reads into
`ConfigDTO`. -/
structure RawConfig where
  seed_urls : PyVal
  total_articles : PyVal
  headers : PyVal
  encoding : PyVal
  timeout : PyVal
  should_verify_certificate : PyVal
  headless_mode : PyVal

/-- Rule 1 of `Config._validate_config_content`:
`if not all(seed.startswith(('https://www.', 'http://www.')) for seed in
config.seed_urls): raise Exception('IncorrectSeedURLError')`. -/
def checkSeeds (raw : RawConfig) : Except PyError Unit :=
  match iterElems raw.seed_urls with
  | .error e => .error e
  | .ok vs =>
    match allSeedsOk vs with
    | .error e => .error e
    | .ok true => .ok ()
    | .ok false => .error (.exn "IncorrectSeedURLError")

/-- Rule 2: `if config.total_articles < 1 or config.total_articles > 150:
raise Exception('NumberOfArticlesOutOfRangeError')` (short-circuit `or`). -/
def checkCount (raw : RawConfig) : Except PyError Unit :=
  match pyLt raw.total_articles 1 with
  | .error e => .error e
  | .ok true => .error (.exn "NumberOfArticlesOutOfRangeError")
  | .ok false =>
    match pyGt raw.total_articles 150 with
    | .error e => .error e
    | .ok true => .error (.exn "NumberOfArticlesOutOfRangeError")
    | .ok false => .ok ()

/-- Rule 3: `if not isinstance(config.total_articles, int):
raise Exception('IncorrectNumberOfArticlesError')`. -/
def checkCountInt (raw : RawConfig) : Except PyError Unit :=
  if isInstInt raw.total_articles then .ok ()
  else .error (.exn "IncorrectNumberOfArticlesError")

/-- Rule 4: `if not isinstance(config.headers, dict):
raise Exception('IncorrectHeadersError')`. -/
def checkHeaders (raw : RawConfig) : Except PyError Unit :=
  if isInstDict raw.headers then .ok ()
  else .error (.exn "IncorrectHeadersError")

/-- Rule 5: `if not isinstance(config.encoding, str):
raise Exception('IncorrectEncodingError')`. -/
def checkEncoding (raw : RawConfig) : Except PyError Unit :=
  if isInstStr raw.encoding then .ok ()
  else .error (.exn "IncorrectEncodingError")

/-- Rule 6: `if config.timeout < 1 or config.timeout > 60:
raise Exception('IncorrectTimeoutError')` (short-circuit `or`;
note: no integrality check is performed on the timeout). -/
def checkTimeout (raw : RawConfig) : Except PyError Unit :=
  match pyLt raw.timeout 1 with
  | .error e => .error e
  | .ok true => .error (.exn "IncorrectTimeoutError")
  | .ok false =>
    match pyGt raw.timeout 60 with
    | .error e => .error e
    | .ok true => .error (.exn "IncorrectTimeoutError")
    | .ok false => .ok ()

/-- Rule 7: `if not isinstance(config.headless_mode, bool):
raise Exception('IncorrectVerifyError')`. -/
def checkHeadless (raw : RawConfig) : Except PyError Unit :=
  if isInstBool raw.headless_mode then .ok ()
  else .error (.exn "IncorrectVerifyError")

/-- `Config._validate_config_content`: the seven checks in source order,
stopping at the first raised exception. -/
def validateConfigContent (raw : RawConfig) : Except PyError Unit :=
  match checkSeeds raw with
  | .error e => .error e
  | .ok _ =>
  match checkCount raw with
  | .error e => .error e
  | .ok _ =>
  match checkCountInt raw with
  | .error e => .error e
  | .ok _ =>
  match checkHeaders raw with
  | .error e => .error e
  | .ok _ =>
  match checkEncoding raw with
  | .error e => .error e
  | .ok _ =>
  match checkTimeout raw with
  | .error e => .error e
  | .ok _ => checkHeadless raw

/-- The constructed `Config` object: it stores the extracted
configuration content. -/
structure Config where
  config : RawConfig

/-- `Config.__init__`: runs `_validate_config_content` (which raises on
any violation, propagating out of the constructor) and only then stores
the extracted content; a raised exception means no object is produced. -/
def Config.load (raw : RawConfig) : Except PyError Config :=
  match validateConfigContent raw with
  | .error e => .error e
  | .ok _ => .ok ⟨raw⟩

/-- `Config.get_headers`. -/
def Config.get_headers (c : Config) : PyVal := c.config.headers

/-- `Config.get_timeout`. -/
def Config.get_timeout (c : Config) : PyVal := c.config.timeout

/-- `Config.get_verify_certificate`. -/
def Config.get_verify_certificate (c : Config) : PyVal :=
  c.config.should_verify_certificate

/-- `Config.get_headless_mode`. -/
def Config.get_headless_mode (c : Config) : PyVal := c.config.headless_mode

/-- `Config.get_seed_urls`. -/
def Config.get_seed_urls (c : Config) : PyVal := c.config.seed_urls

/-- `Config.get_num_articles`. -/
def Config.get_num_articles (c : Config) : PyVal := c.config.total_articles

/-- A concrete configuration whose fixed fields are valid, with the
article count, timeout, certificate flag and headless flag given as
arguments; used by witnesses and counterexamples. -/
def mkRaw (count tmo verify headless : PyVal) : RawConfig where
  seed_urls := .pyList [.pyStr "https://www.example.com/news"]
  total_articles := count
  headers := .pyDict [("User-Agent", .pyStr "Mozilla/5.0")]
  encoding := .pyStr "utf-8"
  timeout := tmo
  should_verify_certificate := verify
  headless_mode := headless

/-- A fully valid concrete configuration with a given article count and
timeout. -/
def validRaw (count tmo : PyVal) : RawConfig :=
  mkRaw count tmo (.pyBool true) (.pyBool false)

/-- The rational 30.5 = 61/2, in reduced form (a non-integer timeout
value; 30.5 is exactly representable as a Python float). -/
def ratThirtyPointFive : ℚ := ⟨61, 2, by decide, by decide⟩

/-- The rational 5.5 = 11/2, in reduced form. -/
def ratFivePointFive : ℚ := ⟨11, 2, by decide, by decide⟩

example : (Config.load (validRaw (.pyInt 10) (.pyInt 30))).isOk = true := by rfl
example : validateConfigContent (validRaw (.pyInt 0) (.pyInt 30)) =
    .error (.exn "NumberOfArticlesOutOfRangeError") := by rfl
example : validateConfigContent (validRaw (.pyInt 151) (.pyInt 30)) =
    .error (.exn "NumberOfArticlesOutOfRangeError") := by rfl
example : (Config.load (validRaw (.pyInt 10) (.pyNum ratThirtyPointFive))).isOk = true := by
  rfl
example : validateConfigContent (validRaw (.pyNum ratFivePointFive) (.pyInt 30)) =
    .error (.exn "IncorrectNumberOfArticlesError") := by rfl

/-- The full parameter set of an outbound HTTP request as issued through
the requests library: explicit arguments plus the library default for
certificate verification. -/
structure RequestSpec where
  url : String
  headers : PyVal
  timeout : PyVal
  verify : PyVal

/-- What the network does with one issued request: a response with some
status code and body, or one of the exceptions the requests library
raises for ordinary failures. -/
inductive NetOutcome where
  | success (status : Nat) (body : String)
  | timeoutRaised
  | connectionRaised
  | sslRaised

/-- Exceptions raised by the requests library for ordinary network
failures. -/
inductive ReqException where
  | timeout
  | connectionError
  | sslError
deriving DecidableEq

/-- `requests.models.Response`: status code and body. -/
structure Response where
  status_code : Nat
  text : String
deriving DecidableEq

/-- The request `make_request` issues:
`requests.get(url=url, headers=headers, timeout=timeout)` passes only
`url`, `headers` and `timeout`; `verify` is left at the requests-library
default `True`. -/
def requestOf (url : String) (config : Config) : RequestSpec where
  url := url
  headers := config.get_headers
  timeout := config.get_timeout
  verify := .pyBool true

/-- `requests.get`, modelled against a network behaviour `net` mapping
the issued request to an outcome: it raises for timeout, connection and
TLS failures and returns the `Response` unchanged otherwise, whatever
its status code. -/
def requestsGet (net : RequestSpec → NetOutcome) (spec : RequestSpec) :
    Except ReqException Response :=
  match net spec with
  | .success st b => .ok ⟨st, b⟩
  | .timeoutRaised => .error .timeout
  | .connectionRaised => .error .connectionError
  | .sslRaised => .error .sslError

/-- `make_request(url, config)`: reads headers and timeout from the
config and calls `requests.get(url=url, headers=headers,
timeout=timeout)` with no exception handling around the call. -/
def make_request (net : RequestSpec → NetOutcome) (url : String) (config : Config) :
    Except ReqException Response :=
  requestsGet net (requestOf url config)

/-- State of one directory path on the filesystem. -/
inductive DirState where
  | absent
  | present (entries : List String)
deriving DecidableEq

/-- OS errors raised by `os.rmdir` and `os.mkdir`. -/
inductive OsError where
  | fileNotFound
  | directoryNotEmpty
  | fileExists
deriving DecidableEq

/-- `os.path.isdir(p) and os.listdir(p)` as a truth value: the
short-circuit conjunction is truthy exactly when the directory exists
and has at least one entry. -/
def existsAndNonempty : DirState → Bool
  | .present (_ :: _) => true
  | _ => false

/-- `os.rmdir`: removes an empty directory; raises `FileNotFoundError`
when the path is missing and `OSError` when the directory is not
empty. -/
def rmdir : DirState → Except OsError DirState
  | .absent => .error .fileNotFound
  | .present [] => .ok .absent
  | .present (_ :: _) => .error .directoryNotEmpty

/-- `os.mkdir`: creates the directory; raises `FileExistsError` when the
path already exists. -/
def mkdir : DirState → Except OsError DirState
  | .absent => .ok (.present [])
  | .present _ => .error .fileExists

/-- `prepare_environment(base_path)`: the body ignores `base_path` and
operates on the `ASSETS_PATH` directory, whose state is `s`:
`if not (os.path.isdir(ASSETS_PATH) and os.listdir(ASSETS_PATH)):
os.rmdir(ASSETS_PATH)` followed unconditionally by
`os.mkdir(ASSETS_PATH)`. -/
def prepare_environment (_base_path : String) (s : DirState) :
    Except OsError DirState :=
  match (if existsAndNonempty s then .ok s else rmdir s : Except OsError DirState) with
  | .error e => .error e
  | .ok s₁ => mkdir s₁

example : prepare_environment "base" .absent = .error .fileNotFound := by rfl
example : prepare_environment "base" (.present ["a.txt"]) = .error .fileExists := by rfl
example : prepare_environment "base" (.present []) = .ok (.present []) := by rfl

/-- Modelled from the spec: the body of `Crawler.find_articles` is absent
from `src/lab_5_scrapper/scrapper.py` (the method is declared with only a
docstring). A discovered article link: absolute URL plus a monotonically
assigned sequence index (1..N). -/
structure DiscoveredLink where
  url : String
  index : Nat
deriving DecidableEq

/-- Modelled from the spec: the content of one fetched listing page —
candidate article URLs plus further listing (pagination) pages. A site is
a map from page URL to `Option ListingPage`, `none` meaning fetch
failure for that page. -/
structure ListingPage where
  articleLinks : List String
  nextPages : List String

/-- Modelled from the spec (section 4.3, Discovering): append each
candidate URL not already in the seen set, marking it seen and recording
a DiscoveredLink with the next sequence index, but only while the
discovered-article count is below target. Returns the updated seen set
and discovered list. -/
def addCandidates (target : Nat) :
    List String → List String → List DiscoveredLink →
    List String × List DiscoveredLink
  | [], seen, found => (seen, found)
  | u :: us, seen, found =>
    if target ≤ found.length then (seen, found)
    else if u ∈ seen then addCandidates target us seen found
    else addCandidates target us (u :: seen) (found ++ [⟨u, found.length + 1⟩])

/-- Modelled from the spec (section 4.3): repeatedly pop the next queued
page and fetch it; on failure skip it, on success collect its candidate
links and, while still below target, enqueue its pagination pages.
Terminates when the target count is reached or the queue is exhausted;
`fuel` bounds the number of listing pages processed. -/
def discoverLoop (site : String → Option ListingPage) (target : Nat) :
    Nat → List String → List String → List DiscoveredLink → List DiscoveredLink
  | 0, _, _, found => found
  | _ + 1, [], _, found => found
  | fuel + 1, p :: queue, seen, found =>
    if target ≤ found.length then found
    else
      match site p with
      | none => discoverLoop site target fuel queue seen found
      | some page =>
        let sf := addCandidates target page.articleLinks seen found
        let queue₂ := if sf.2.length < target then queue ++ page.nextPages else queue
        discoverLoop site target fuel queue₂ sf.1 sf.2

/-- Modelled from the spec: `Crawler.find_articles` — start from the seed
URLs (Seeding: empty seen set, queue = copy of the seeds) and run the
discovery loop. -/
def find_articles (site : String → Option ListingPage) (target : Nat)
    (seeds : List String) (fuel : Nat) : List DiscoveredLink :=
  discoverLoop site target fuel seeds [] []

/-- One listing page used to exercise the discovery model. -/
def demoSite : String → Option ListingPage
  | "https://www.example.com/news" =>
    some ⟨["https://www.example.com/a", "https://www.example.com/b",
           "https://www.example.com/a", "https://www.example.com/c"],
          ["https://www.example.com/news?page=2"]⟩
  | "https://www.example.com/news?page=2" =>
    some ⟨["https://www.example.com/b", "https://www.example.com/d"], []⟩
  | _ => none

example : (find_articles demoSite 3 ["https://www.example.com/news"] 10).map
    DiscoveredLink.url =
    ["https://www.example.com/a", "https://www.example.com/b",
     "https://www.example.com/c"] := by rfl
example : (find_articles demoSite 10 ["https://www.example.com/news"] 10).map
    DiscoveredLink.url =
    ["https://www.example.com/a", "https://www.example.com/b",
     "https://www.example.com/c", "https://www.example.com/d"] := by rfl

/-! ## Shared lemmas about configuration loading -/

/-- A validation error propagates out of the constructor unchanged: no
`Config` object is produced. -/
theorem load_eq_error_of_validate_error (raw : RawConfig) (e : PyError)
    (h : validateConfigContent raw = .error e) :
    Config.load raw = .error e := by
  unfold Config.load
  rw [h]

/-- A successful construction means validation succeeded, and the stored
content is exactly the loaded raw structure. -/
theorem load_ok_validate (raw : RawConfig) (c : Config)
    (h : Config.load raw = .ok c) :
    validateConfigContent raw = .ok () ∧ c = ⟨raw⟩ := by
  unfold Config.load at h
  cases hv : validateConfigContent raw with
  | error e => rw [hv] at h; exact absurd h (by simp)
  | ok u =>
    cases u
    rw [hv] at h
    simp only [Except.ok.injEq] at h
    exact ⟨rfl, h.symm⟩

/-- Successful validation means every individual rule passed. -/
theorem validate_ok_parts (raw : RawConfig)
    (h : validateConfigContent raw = .ok ()) :
    checkSeeds raw = .ok () ∧ checkCount raw = .ok () ∧
    checkCountInt raw = .ok () ∧ checkHeaders raw = .ok () ∧
    checkEncoding raw = .ok () ∧ checkTimeout raw = .ok () ∧
    checkHeadless raw = .ok () := by
  unfold validateConfigContent at h
  cases h1 : checkSeeds raw with
  | error e => simp [h1] at h
  | ok u =>
    cases u
    rw [h1] at h
    cases h2 : checkCount raw with
    | error e => simp [h2] at h
    | ok u =>
      cases u
      rw [h2] at h
      cases h3 : checkCountInt raw with
      | error e => simp [h3] at h
      | ok u =>
        cases u
        rw [h3] at h
        cases h4 : checkHeaders raw with
        | error e => simp [h4] at h
        | ok u =>
          cases u
          rw [h4] at h
          cases h5 : checkEncoding raw with
          | error e => simp [h5] at h
          | ok u =>
            cases u
            rw [h5] at h
            cases h6 : checkTimeout raw with
            | error e => simp [h6] at h
            | ok u =>
              cases u
              rw [h6] at h
              exact ⟨rfl, rfl, rfl, rfl, rfl, rfl, h⟩

/-! ## C1: construction is all-or-nothing -/

/-- Claim C1: Config construction is all-or-nothing — whenever the loaded
content violates any validation rule (validation raises an error), the
constructor raises that same error and no Config object is produced; and
whenever a Config is produced, validation succeeded and the object holds
exactly the loaded content, never a partially valid one. -/
theorem config_construction_all_or_nothing :
    (∀ raw e, validateConfigContent raw = .error e →
      Config.load raw = .error e) ∧
    (∀ raw c, Config.load raw = .ok c →
      validateConfigContent raw = .ok () ∧ c = ⟨raw⟩) :=
  ⟨load_eq_error_of_validate_error, load_ok_validate⟩

/-- Witness for C1 at a concrete invalid input (article count 0) and a
concrete valid input. -/
theorem config_construction_all_or_nothing_witness :
    Config.load (validRaw (.pyInt 0) (.pyInt 30)) =
      .error (.exn "NumberOfArticlesOutOfRangeError") ∧
    validateConfigContent (validRaw (.pyInt 10) (.pyInt 30)) = .ok () :=
  ⟨config_construction_all_or_nothing.1 _ _ (by rfl),
   (config_construction_all_or_nothing.2 _ _ (by rfl)).1⟩

/-! ## C2: prepare_environment -/

/-- Claim C2 (code behaviour at the failing inputs): `prepare_environment`
is not an idempotent reset. When the assets directory does not exist, the
unconditional branch structure runs `os.rmdir` on the missing path and
raises `FileNotFoundError` instead of creating the directory; when the
directory exists and is non-empty, the removal branch is skipped and
`os.mkdir` on the existing path raises `FileExistsError`, leaving the
directory non-empty. Only the exists-and-empty case succeeds. -/
theorem prepare_environment_code_behavior :
    prepare_environment "base" .absent = .error .fileNotFound ∧
    prepare_environment "base" (.present ["article_1.txt"]) = .error .fileExists ∧
    prepare_environment "base" (.present []) = .ok (.present []) :=
  ⟨rfl, rfl, rfl⟩

/-! ## C3: make_request and the certificate-verification policy -/

/-- A Config whose certificate-verification flag is `False`, as
constructed by `Config.load`. -/
def cfgVerifyFalse : Config :=
  ⟨mkRaw (.pyInt 10) (.pyInt 30) (.pyBool false) (.pyBool false)⟩

/-- Counterexample to C3: for the successfully constructed configuration
whose certificate-verification flag is `False`, the request issued by
`make_request` carries `verify = True` (the requests-library default),
not the config's policy — the flag is never passed to `requests.get`. -/
theorem fetch_verify_policy_counterexample :
    Config.load (mkRaw (.pyInt 10) (.pyInt 30) (.pyBool false) (.pyBool false)) =
      .ok cfgVerifyFalse ∧
    cfgVerifyFalse.get_verify_certificate = .pyBool false ∧
    (requestOf "https://www.example.com/a" cfgVerifyFalse).verify = .pyBool true ∧
    (requestOf "https://www.example.com/a" cfgVerifyFalse).verify ≠
      cfgVerifyFalse.get_verify_certificate := by
  refine ⟨rfl, rfl, rfl, ?_⟩
  intro h
  simp [requestOf, Config.get_verify_certificate, cfgVerifyFalse, mkRaw] at h

/-- Claim C3 as amended: `make_request` applies the config's headers and
timeout to the issued request, uniformly for every call with no per-call
override, and the response is obtained from exactly that request; the
certificate-verification policy, however, is never applied — the issued
request always carries the library default `verify = True`, whatever the
config's flag. -/
theorem fetch_applies_headers_timeout_uniformly
    (net : RequestSpec → NetOutcome) (url : String) (config : Config) :
    (requestOf url config).url = url ∧
    (requestOf url config).headers = config.get_headers ∧
    (requestOf url config).timeout = config.get_timeout ∧
    (requestOf url config).verify = .pyBool true ∧
    make_request net url config = requestsGet net (requestOf url config) :=
  ⟨rfl, rfl, rfl, rfl, rfl⟩

/-! ## C4: make_request and network failures -/

/-- A network behaviour in which every request times out. -/
def netAlwaysTimeout : RequestSpec → NetOutcome := fun _ => .timeoutRaised

/-- Counterexample to C4: when the network times out, `make_request`
raises the requests-library timeout exception (there is no exception
handling in its body), rather than returning a failure-classification
value to the caller. -/
theorem fetch_timeout_raises_counterexample :
    make_request netAlwaysTimeout "https://www.example.com/a" cfgVerifyFalse =
      .error .timeout :=
  rfl

/-- Claim C4 as amended: `make_request` propagates the underlying
library's exceptions — timeout, connection failure (DNS included) and
TLS failure all escape as raised exceptions for every URL and config —
while a completed HTTP exchange is returned as the raw `Response`
whatever its status code (a non-2xx status is not classified as a
failure either). -/
theorem fetch_propagates_network_exceptions
    (url : String) (config : Config) (st : Nat) (body : String) :
    make_request (fun _ => .success st body) url config = .ok ⟨st, body⟩ ∧
    make_request (fun _ => .timeoutRaised) url config = .error .timeout ∧
    make_request (fun _ => .connectionRaised) url config = .error .connectionError ∧
    make_request (fun _ => .sslRaised) url config = .error .sslError :=
  ⟨rfl, rfl, rfl, rfl⟩

/-! ## C5: timeout validation -/

/-- Counterexample to C5: the timeout rule checks only the range, not
integrality. The non-integer timeout 30.5 (which lies inside [1, 60])
passes validation: construction succeeds instead of failing with the
timeout error kind. -/
theorem timeout_integrality_counterexample :
    isInstInt (validRaw (.pyInt 10) (.pyNum ratThirtyPointFive)).timeout = false ∧
    Config.load (validRaw (.pyInt 10) (.pyNum ratThirtyPointFive)) ≠
      .error (.exn "IncorrectTimeoutError") ∧
    (Config.load (validRaw (.pyInt 10) (.pyNum ratThirtyPointFive))).isOk = true := by
  refine ⟨rfl, ?_, rfl⟩
  intro h
  rw [show Config.load (validRaw (.pyInt 10) (.pyNum ratThirtyPointFive)) =
      .ok ⟨validRaw (.pyInt 10) (.pyNum ratThirtyPointFive)⟩ from rfl] at h
  simp at h

/-- A passing timeout rule means the timeout is numeric with value in
[1, 60]. -/
theorem checkTimeout_ok_range (raw : RawConfig)
    (h : checkTimeout raw = .ok ()) :
    ∃ q, asNum raw.timeout = some q ∧ 1 ≤ q ∧ q ≤ 60 := by
  unfold checkTimeout pyLt pyGt at h
  cases hq : asNum raw.timeout with
  | none => rw [hq] at h; simp at h
  | some q =>
    simp only [hq] at h
    cases hb1 : decide (q < ((1 : Int) : ℚ)) with
    | true => simp only [hb1] at h; exact Except.noConfusion h
    | false =>
      simp only [hb1] at h
      cases hb2 : decide (((60 : Int) : ℚ) < q) with
      | true => simp only [hb2] at h; exact Except.noConfusion h
      | false =>
        refine ⟨q, rfl, ?_, ?_⟩
        · have h1 : ((1 : Int) : ℚ) ≤ q := le_of_not_lt (of_decide_eq_false hb1)
          simpa using h1
        · have h1 : q ≤ ((60 : Int) : ℚ) := le_of_not_lt (of_decide_eq_false hb2)
          simpa using h1

/-- A numeric timeout outside [1, 60] makes the timeout rule raise its
error kind. -/
theorem checkTimeout_error_of_range (raw : RawConfig) (q : ℚ)
    (hq : asNum raw.timeout = some q) (hout : q < 1 ∨ 60 < q) :
    checkTimeout raw = .error (.exn "IncorrectTimeoutError") := by
  unfold checkTimeout pyLt pyGt
  simp only [hq]
  rcases hout with hlt | hgt
  · have hb : decide (q < ((1 : Int) : ℚ)) = true :=
      decide_eq_true (by exact_mod_cast hlt)
    simp only [hb]
  · cases hb1 : decide (q < ((1 : Int) : ℚ)) with
    | true => simp only [hb1]
    | false =>
      have hb2 : decide (((60 : Int) : ℚ) < q) = true :=
        decide_eq_true (by exact_mod_cast hgt)
      simp only [hb1, hb2]

/-- When the five earlier rules pass and the timeout rule raises,
validation as a whole raises the timeout rule's error. -/
theorem validate_error_of_checkTimeout (raw : RawConfig) (e : PyError)
    (h1 : checkSeeds raw = .ok ()) (h2 : checkCount raw = .ok ())
    (h3 : checkCountInt raw = .ok ()) (h4 : checkHeaders raw = .ok ())
    (h5 : checkEncoding raw = .ok ()) (ht : checkTimeout raw = .error e) :
    validateConfigContent raw = .error e := by
  unfold validateConfigContent
  simp only [h1, h2, h3, h4, h5, ht]

/-- Claim C5 as amended: validation enforces only the range of the
timeout — any numeric timeout whose value lies outside [1, 60] fails
construction with `IncorrectTimeoutError` once the earlier rules pass,
and every successfully constructed Config has a numeric timeout whose
value lies in [1, 60] — while integrality is not checked, so a
non-integer numeric timeout inside the range is accepted. -/
theorem timeout_range_enforced :
    (∀ raw q, asNum raw.timeout = some q → (q < 1 ∨ 60 < q) →
      checkSeeds raw = .ok () → checkCount raw = .ok () →
      checkCountInt raw = .ok () → checkHeaders raw = .ok () →
      checkEncoding raw = .ok () →
      Config.load raw = .error (.exn "IncorrectTimeoutError")) ∧
    (∀ raw c, Config.load raw = .ok c →
      ∃ q, asNum raw.timeout = some q ∧ 1 ≤ q ∧ q ≤ 60) := by
  constructor
  · intro raw q hq hout h1 h2 h3 h4 h5
    exact load_eq_error_of_validate_error raw _
      (validate_error_of_checkTimeout raw _ h1 h2 h3 h4 h5
        (checkTimeout_error_of_range raw q hq hout))
  · intro raw c h
    have hv := (load_ok_validate raw c h).1
    exact checkTimeout_ok_range raw (validate_ok_parts raw hv).2.2.2.2.2.1

/-- Witness for C5's amended theorem: timeouts 0 and 61 fail with
`IncorrectTimeoutError`; the constructed config with timeout 30 has its
numeric value in [1, 60]. -/
theorem timeout_range_enforced_witness :
    Config.load (validRaw (.pyInt 10) (.pyInt 0)) =
      .error (.exn "IncorrectTimeoutError") ∧
    Config.load (validRaw (.pyInt 10) (.pyInt 61)) =
      .error (.exn "IncorrectTimeoutError") ∧
    (∃ q, asNum (validRaw (.pyInt 10) (.pyInt 30)).timeout = some q ∧
      1 ≤ q ∧ q ≤ 60) :=
  ⟨timeout_range_enforced.1 (validRaw (.pyInt 10) (.pyInt 0)) ((0 : Int) : ℚ)
      rfl (Or.inl (by norm_num)) (by rfl) (by rfl) (by rfl) (by rfl) (by rfl),
   timeout_range_enforced.1 (validRaw (.pyInt 10) (.pyInt 61)) ((61 : Int) : ℚ)
      rfl (Or.inr (by norm_num)) (by rfl) (by rfl) (by rfl) (by rfl) (by rfl),
   timeout_range_enforced.2 (validRaw (.pyInt 10) (.pyInt 30))
     ⟨validRaw (.pyInt 10) (.pyInt 30)⟩ (by rfl)⟩

/-! ## C6: seed URL validation -/

/-- When the seed check passes, every iterated element is a string
carrying one of the two required prefixes. -/
theorem allSeedsOk_true_elems (vs : List PyVal)
    (h : allSeedsOk vs = .ok true) :
    ∀ v ∈ vs, ∃ s, v = .pyStr s ∧
      (strStartsWith s "https://www." || strStartsWith s "http://www.") = true := by
  induction vs with
  | nil => intro v hv; cases hv
  | cons w ws ih =>
    intro v hv
    unfold allSeedsOk at h
    cases hpw : pyStartsWithWWW w with
    | error e => simp only [hpw] at h; exact Except.noConfusion h
    | ok b =>
      cases b with
      | false => simp only [hpw] at h; simp at h
      | true =>
        simp only [hpw] at h
        cases hv with
        | head =>
          cases w with
          | pyStr s =>
            simp only [pyStartsWithWWW, Except.ok.injEq] at hpw
            exact ⟨s, rfl, hpw⟩
          | pyInt n => exact Except.noConfusion hpw
          | pyNum q => exact Except.noConfusion hpw
          | pyBool b => exact Except.noConfusion hpw
          | pyList xs => exact Except.noConfusion hpw
          | pyDict es => exact Except.noConfusion hpw
          | pyNone => exact Except.noConfusion hpw
        | tail _ hv' => exact ih h v hv'

/-- When every element is a string and some element lacks both prefixes,
the short-circuiting check returns `False`. -/
theorem allSeedsOk_false_of_bad (vs : List PyVal)
    (hstr : ∀ v ∈ vs, ∃ s, v = .pyStr s) (s₀ : String)
    (hmem : PyVal.pyStr s₀ ∈ vs)
    (hbad : (strStartsWith s₀ "https://www." ||
      strStartsWith s₀ "http://www.") = false) :
    allSeedsOk vs = .ok false := by
  induction vs with
  | nil => cases hmem
  | cons w ws ih =>
    obtain ⟨s, rfl⟩ := hstr w (List.mem_cons_self w ws)
    unfold allSeedsOk
    dsimp only [pyStartsWithWWW]
    cases hb : (strStartsWith s "https://www." ||
        strStartsWith s "http://www.") with
    | false => rfl
    | true =>
      have hmem' : PyVal.pyStr s₀ ∈ ws := by
        cases hmem with
        | head => rw [hbad] at hb; exact Bool.noConfusion hb
        | tail _ h' => exact h'
      exact ih (fun v hv => hstr v (List.mem_cons_of_mem _ hv)) hmem'

/-- A passing seed rule decomposes into successful iteration and a
passing all-check. -/
theorem checkSeeds_ok_parts (raw : RawConfig) (h : checkSeeds raw = .ok ()) :
    ∃ vs, iterElems raw.seed_urls = .ok vs ∧ allSeedsOk vs = .ok true := by
  unfold checkSeeds at h
  cases h1 : iterElems raw.seed_urls with
  | error e => simp only [h1] at h; exact Except.noConfusion h
  | ok vs =>
    simp only [h1] at h
    cases h2 : allSeedsOk vs with
    | error e => simp only [h2] at h; exact Except.noConfusion h
    | ok b =>
      cases b with
      | false => simp only [h2] at h; exact Except.noConfusion h
      | true => exact ⟨vs, rfl, h2⟩

/-- A failing all-check makes the seed rule raise its error kind. -/
theorem checkSeeds_error_of_bad (raw : RawConfig) (vs : List PyVal)
    (h1 : iterElems raw.seed_urls = .ok vs)
    (h2 : allSeedsOk vs = .ok false) :
    checkSeeds raw = .error (.exn "IncorrectSeedURLError") := by
  unfold checkSeeds
  simp only [h1, h2]

/-- An error in the first rule is the error of the whole validation. -/
theorem validate_error_of_checkSeeds (raw : RawConfig) (e : PyError)
    (h : checkSeeds raw = .error e) :
    validateConfigContent raw = .error e := by
  unfold validateConfigContent
  rw [h]

/-- Claim C6: seed URL validation — every constructed config's seed URLs
are strings starting with `https://www.` or `http://www.`; and for every
input whose seed URLs are strings with at least one (such as
`"ftp://www.site.com"`) matching neither prefix, construction fails with
the `IncorrectSeedURLError` kind and constructs nothing. -/
theorem seed_url_rule :
    (∀ raw c, Config.load raw = .ok c →
      ∃ vs, iterElems raw.seed_urls = .ok vs ∧
        ∀ v ∈ vs, ∃ s, v = .pyStr s ∧
          (strStartsWith s "https://www." || strStartsWith s "http://www.") = true) ∧
    (∀ raw vs s₀, iterElems raw.seed_urls = .ok vs →
      (∀ v ∈ vs, ∃ s, v = .pyStr s) →
      PyVal.pyStr s₀ ∈ vs →
      (strStartsWith s₀ "https://www." || strStartsWith s₀ "http://www.") = false →
      Config.load raw = .error (.exn "IncorrectSeedURLError")) := by
  constructor
  · intro raw c h
    have hv := (load_ok_validate raw c h).1
    obtain ⟨vs, h1, h2⟩ := checkSeeds_ok_parts raw (validate_ok_parts raw hv).1
    exact ⟨vs, h1, allSeedsOk_true_elems vs h2⟩
  · intro raw vs s₀ h1 hstr hmem hbad
    exact load_eq_error_of_validate_error raw _
      (validate_error_of_checkSeeds raw _
        (checkSeeds_error_of_bad raw vs h1
          (allSeedsOk_false_of_bad vs hstr s₀ hmem hbad)))

/-- A concrete input whose only seed URL is `"ftp://www.site.com"`. -/
def badSeedRaw : RawConfig :=
  { validRaw (.pyInt 10) (.pyInt 30) with
    seed_urls := .pyList [.pyStr "ftp://www.site.com"] }

/-- Witness for C6: the `ftp://` seed fails with `IncorrectSeedURLError`;
the valid config's seeds all carry a required prefix. -/
theorem seed_url_rule_witness :
    Config.load badSeedRaw = .error (.exn "IncorrectSeedURLError") ∧
    (∃ vs, iterElems (validRaw (.pyInt 10) (.pyInt 30)).seed_urls = .ok vs ∧
      ∀ v ∈ vs, ∃ s, v = .pyStr s ∧
        (strStartsWith s "https://www." || strStartsWith s "http://www.") = true) :=
  ⟨seed_url_rule.2 badSeedRaw [.pyStr "ftp://www.site.com"] "ftp://www.site.com"
      (by rfl)
      (fun v hv => ⟨"ftp://www.site.com", List.mem_singleton.mp hv⟩)
      (List.mem_singleton.mpr rfl) (by rfl),
   seed_url_rule.1 (validRaw (.pyInt 10) (.pyInt 30))
     ⟨validRaw (.pyInt 10) (.pyInt 30)⟩ (by rfl)⟩

/-! ## C7: article count validation -/

/-- A numeric article count outside [1, 150] makes the range rule raise
its error kind. -/
theorem checkCount_error_of_range (raw : RawConfig) (q : ℚ)
    (hq : asNum raw.total_articles = some q) (hout : q < 1 ∨ 150 < q) :
    checkCount raw = .error (.exn "NumberOfArticlesOutOfRangeError") := by
  unfold checkCount pyLt pyGt
  simp only [hq]
  rcases hout with hlt | hgt
  · have hb : decide (q < ((1 : Int) : ℚ)) = true :=
      decide_eq_true (by exact_mod_cast hlt)
    simp only [hb]
  · cases hb1 : decide (q < ((1 : Int) : ℚ)) with
    | true => simp only [hb1]
    | false =>
      have hb2 : decide (((150 : Int) : ℚ) < q) = true :=
        decide_eq_true (by exact_mod_cast hgt)
      simp only [hb1, hb2]

/-- When the seed rule passes and the count rule raises, validation as a
whole raises the count rule's error. -/
theorem validate_error_of_checkCount (raw : RawConfig) (e : PyError)
    (hs : checkSeeds raw = .ok ()) (hc : checkCount raw = .error e) :
    validateConfigContent raw = .error e := by
  unfold validateConfigContent
  simp only [hs, hc]

/-- Claim C7: article count bounds are [1, 150] inclusive — any numeric
count below 1 (such as 0) or above 150 (such as 151) fails construction
with `NumberOfArticlesOutOfRangeError` once the seed rule passes; counts
1 and 150 pass; and every constructed config's count is an integer in
Python's `isinstance` sense. -/
theorem article_count_bounds :
    (∀ raw q, asNum raw.total_articles = some q → (q < 1 ∨ 150 < q) →
      checkSeeds raw = .ok () →
      Config.load raw = .error (.exn "NumberOfArticlesOutOfRangeError")) ∧
    (Config.load (validRaw (.pyInt 1) (.pyInt 30))).isOk = true ∧
    (Config.load (validRaw (.pyInt 150) (.pyInt 30))).isOk = true ∧
    (∀ raw c, Config.load raw = .ok c → isInstInt raw.total_articles = true) := by
  refine ⟨?_, by rfl, by rfl, ?_⟩
  · intro raw q hq hout hs
    exact load_eq_error_of_validate_error raw _
      (validate_error_of_checkCount raw _ hs (checkCount_error_of_range raw q hq hout))
  · intro raw c h
    have hv := (load_ok_validate raw c h).1
    have hci := (validate_ok_parts raw hv).2.2.1
    unfold checkCountInt at hci
    cases hii : isInstInt raw.total_articles with
    | true => rfl
    | false =>
      rw [hii, if_neg (by simp)] at hci
      exact Except.noConfusion hci

/-- Witness for C7: counts 0 and 151 fail with the range kind; the
constructed config with count 10 has an integer count. -/
theorem article_count_bounds_witness :
    Config.load (validRaw (.pyInt 0) (.pyInt 30)) =
      .error (.exn "NumberOfArticlesOutOfRangeError") ∧
    Config.load (validRaw (.pyInt 151) (.pyInt 30)) =
      .error (.exn "NumberOfArticlesOutOfRangeError") ∧
    isInstInt (validRaw (.pyInt 10) (.pyInt 30)).total_articles = true :=
  ⟨article_count_bounds.1 (validRaw (.pyInt 0) (.pyInt 30)) ((0 : Int) : ℚ) rfl
      (Or.inl (by norm_num)) (by rfl),
   article_count_bounds.1 (validRaw (.pyInt 151) (.pyInt 30)) ((151 : Int) : ℚ) rfl
      (Or.inr (by norm_num)) (by rfl),
   article_count_bounds.2.2.2 (validRaw (.pyInt 10) (.pyInt 30))
      ⟨validRaw (.pyInt 10) (.pyInt 30)⟩ (by rfl)⟩

/-! ## C8: the headless-flag rule and its error kind -/

/-- `str.startswith` dispatch fails only with `AttributeError`. -/
theorem pyStartsWithWWW_error (v : PyVal) (e : PyError)
    (h : pyStartsWithWWW v = .error e) : e = .attributeError := by
  cases v with
  | pyStr s => exact Except.noConfusion h
  | pyInt n => injection h with h; exact h.symm
  | pyNum q => injection h with h; exact h.symm
  | pyBool b => injection h with h; exact h.symm
  | pyList xs => injection h with h; exact h.symm
  | pyDict es => injection h with h; exact h.symm
  | pyNone => injection h with h; exact h.symm

/-- Iteration fails only with `TypeError`. -/
theorem iterElems_error (v : PyVal) (e : PyError)
    (h : iterElems v = .error e) : e = .typeError := by
  cases v with
  | pyStr s => exact Except.noConfusion h
  | pyInt n => injection h with h; exact h.symm
  | pyNum q => injection h with h; exact h.symm
  | pyBool b => injection h with h; exact h.symm
  | pyList xs => exact Except.noConfusion h
  | pyDict es => exact Except.noConfusion h
  | pyNone => injection h with h; exact h.symm

/-- The all-check fails only with `AttributeError`. -/
theorem allSeedsOk_error (vs : List PyVal) (e : PyError)
    (h : allSeedsOk vs = .error e) : e = .attributeError := by
  induction vs with
  | nil => exact Except.noConfusion h
  | cons w ws ih =>
    unfold allSeedsOk at h
    cases hpw : pyStartsWithWWW w with
    | error e' =>
      simp only [hpw] at h
      injection h with h
      exact h ▸ pyStartsWithWWW_error w e' hpw
    | ok b =>
      cases b with
      | false => simp only [hpw] at h; exact Except.noConfusion h
      | true => simp only [hpw] at h; exact ih h

/-- The seed rule raises only its own kind or a built-in error. -/
theorem checkSeeds_error_kinds (raw : RawConfig) (e : PyError)
    (h : checkSeeds raw = .error e) :
    e = .exn "IncorrectSeedURLError" ∨ e = .typeError ∨ e = .attributeError := by
  unfold checkSeeds at h
  cases h1 : iterElems raw.seed_urls with
  | error e' =>
    simp only [h1] at h
    injection h with h
    exact Or.inr (Or.inl (h ▸ iterElems_error _ e' h1))
  | ok vs =>
    simp only [h1] at h
    cases h2 : allSeedsOk vs with
    | error e' =>
      simp only [h2] at h
      injection h with h
      exact Or.inr (Or.inr (h ▸ allSeedsOk_error vs e' h2))
    | ok b =>
      cases b with
      | true => simp only [h2] at h; exact Except.noConfusion h
      | false => simp only [h2] at h; injection h with h; exact Or.inl h.symm

/-- The count range rule raises only its own kind or `TypeError`. -/
theorem checkCount_error_kinds (raw : RawConfig) (e : PyError)
    (h : checkCount raw = .error e) :
    e = .exn "NumberOfArticlesOutOfRangeError" ∨ e = .typeError := by
  unfold checkCount pyLt pyGt at h
  cases hq : asNum raw.total_articles with
  | none => simp only [hq] at h; injection h with h; exact Or.inr h.symm
  | some q =>
    simp only [hq] at h
    cases hb1 : decide (q < ((1 : Int) : ℚ)) with
    | true => simp only [hb1] at h; injection h with h; exact Or.inl h.symm
    | false =>
      simp only [hb1] at h
      cases hb2 : decide (((150 : Int) : ℚ) < q) with
      | true => simp only [hb2] at h; injection h with h; exact Or.inl h.symm
      | false => simp only [hb2] at h; exact Except.noConfusion h

/-- The count integrality rule raises only its own kind. -/
theorem checkCountInt_error_kind (raw : RawConfig) (e : PyError)
    (h : checkCountInt raw = .error e) :
    e = .exn "IncorrectNumberOfArticlesError" := by
  unfold checkCountInt at h
  cases hb : isInstInt raw.total_articles with
  | true => rw [hb, if_pos rfl] at h; exact Except.noConfusion h
  | false => rw [hb, if_neg (by simp)] at h; injection h with h; exact h.symm

/-- The headers rule raises only its own kind. -/
theorem checkHeaders_error_kind (raw : RawConfig) (e : PyError)
    (h : checkHeaders raw = .error e) :
    e = .exn "IncorrectHeadersError" := by
  unfold checkHeaders at h
  cases hb : isInstDict raw.headers with
  | true => rw [hb, if_pos rfl] at h; exact Except.noConfusion h
  | false => rw [hb, if_neg (by simp)] at h; injection h with h; exact h.symm

/-- The encoding rule raises only its own kind. -/
theorem checkEncoding_error_kind (raw : RawConfig) (e : PyError)
    (h : checkEncoding raw = .error e) :
    e = .exn "IncorrectEncodingError" := by
  unfold checkEncoding at h
  cases hb : isInstStr raw.encoding with
  | true => rw [hb, if_pos rfl] at h; exact Except.noConfusion h
  | false => rw [hb, if_neg (by simp)] at h; injection h with h; exact h.symm

/-- The timeout rule raises only its own kind or `TypeError`. -/
theorem checkTimeout_error_kinds (raw : RawConfig) (e : PyError)
    (h : checkTimeout raw = .error e) :
    e = .exn "IncorrectTimeoutError" ∨ e = .typeError := by
  unfold checkTimeout pyLt pyGt at h
  cases hq : asNum raw.timeout with
  | none => simp only [hq] at h; injection h with h; exact Or.inr h.symm
  | some q =>
    simp only [hq] at h
    cases hb1 : decide (q < ((1 : Int) : ℚ)) with
    | true => simp only [hb1] at h; injection h with h; exact Or.inl h.symm
    | false =>
      simp only [hb1] at h
      cases hb2 : decide (((60 : Int) : ℚ) < q) with
      | true => simp only [hb2] at h; injection h with h; exact Or.inl h.symm
      | false => simp only [hb2] at h; exact Except.noConfusion h

/-- The headless rule raises exactly its own kind, and only when the
flag is not a boolean. -/
theorem checkHeadless_error_verify (raw : RawConfig) (e : PyError)
    (h : checkHeadless raw = .error e) :
    e = .exn "IncorrectVerifyError" ∧ isInstBool raw.headless_mode = false := by
  unfold checkHeadless at h
  cases hb : isInstBool raw.headless_mode with
  | true => rw [hb, if_pos rfl] at h; exact Except.noConfusion h
  | false =>
    rw [hb, if_neg (by simp)] at h
    injection h with h
    exact ⟨h.symm, rfl⟩

/-- Claim C8: a non-boolean headless flag fails construction once the
other rules pass, raising `IncorrectVerifyError`; and that kind is the
headless rule's own — whenever validation raises it, it was the headless
rule that fired (no other rule ever raises this kind). -/
theorem headless_flag_distinct_kind :
    (∀ raw, checkSeeds raw = .ok () → checkCount raw = .ok () →
      checkCountInt raw = .ok () → checkHeaders raw = .ok () →
      checkEncoding raw = .ok () → checkTimeout raw = .ok () →
      isInstBool raw.headless_mode = false →
      Config.load raw = .error (.exn "IncorrectVerifyError")) ∧
    (∀ raw e, validateConfigContent raw = .error e →
      e = .exn "IncorrectVerifyError" →
      isInstBool raw.headless_mode = false) := by
  constructor
  · intro raw h1 h2 h3 h4 h5 h6 hb
    apply load_eq_error_of_validate_error
    unfold validateConfigContent
    simp only [h1, h2, h3, h4, h5, h6]
    unfold checkHeadless
    rw [hb, if_neg (by simp)]
  · intro raw e hv he
    subst he
    unfold validateConfigContent at hv
    cases h1 : checkSeeds raw with
    | error e' =>
      simp only [h1] at hv
      injection hv with hv
      rcases checkSeeds_error_kinds raw e' h1 with h | h | h <;>
        (rw [hv] at h; exact absurd h (by decide))
    | ok u =>
      cases u
      simp only [h1] at hv
      cases h2 : checkCount raw with
      | error e' =>
        simp only [h2] at hv
        injection hv with hv
        rcases checkCount_error_kinds raw e' h2 with h | h <;>
          (rw [hv] at h; exact absurd h (by decide))
      | ok u =>
        cases u
        simp only [h2] at hv
        cases h3 : checkCountInt raw with
        | error e' =>
          simp only [h3] at hv
          injection hv with hv
          have h := checkCountInt_error_kind raw e' h3
          rw [hv] at h
          exact absurd h (by decide)
        | ok u =>
          cases u
          simp only [h3] at hv
          cases h4 : checkHeaders raw with
          | error e' =>
            simp only [h4] at hv
            injection hv with hv
            have h := checkHeaders_error_kind raw e' h4
            rw [hv] at h
            exact absurd h (by decide)
          | ok u =>
            cases u
            simp only [h4] at hv
            cases h5 : checkEncoding raw with
            | error e' =>
              simp only [h5] at hv
              injection hv with hv
              have h := checkEncoding_error_kind raw e' h5
              rw [hv] at h
              exact absurd h (by decide)
            | ok u =>
              cases u
              simp only [h5] at hv
              cases h6 : checkTimeout raw with
              | error e' =>
                simp only [h6] at hv
                injection hv with hv
                rcases checkTimeout_error_kinds raw e' h6 with h | h <;>
                  (rw [hv] at h; exact absurd h (by decide))
              | ok u =>
                cases u
                simp only [h6] at hv
                exact (checkHeadless_error_verify raw _ hv).2

/-- Witness for C8 at a concrete configuration whose headless flag is the
string `"yes"`. -/
theorem headless_flag_distinct_kind_witness :
    Config.load (mkRaw (.pyInt 10) (.pyInt 30) (.pyBool true) (.pyStr "yes")) =
      .error (.exn "IncorrectVerifyError") :=
  headless_flag_distinct_kind.1
    (mkRaw (.pyInt 10) (.pyInt 30) (.pyBool true) (.pyStr "yes"))
    (by rfl) (by rfl) (by rfl) (by rfl) (by rfl) (by rfl) (by rfl)

/-! ## C10: the certificate-verification flag is never validated -/

/-- Claim C10: validation never inspects the certificate-verification
flag — replacing it by any value whatsoever leaves the validation result
unchanged, and a Config is actually constructed whose flag is the
non-boolean string `"not a bool"`. -/
theorem verify_flag_never_validated :
    (∀ raw v, validateConfigContent
      { raw with should_verify_certificate := v } = validateConfigContent raw) ∧
    (Config.load (mkRaw (.pyInt 10) (.pyInt 30) (.pyStr "not a bool")
      (.pyBool false))).isOk = true ∧
    isInstBool (mkRaw (.pyInt 10) (.pyInt 30) (.pyStr "not a bool")
      (.pyBool false)).should_verify_certificate = false :=
  ⟨fun _ _ => rfl, rfl, rfl⟩

/-! ## C9: discovery emits at most target links, without duplicate URLs -/

/-- The candidate-collecting step preserves the count bound, the
inclusion of all found URLs in the seen set, and the absence of
duplicate URLs. -/
theorem addCandidates_inv (target : Nat) (us : List String) :
    ∀ seen found, found.length ≤ target →
      (∀ l ∈ found, l.url ∈ seen) →
      ((found.map DiscoveredLink.url).Nodup) →
      ((addCandidates target us seen found).2.length ≤ target ∧
       (∀ l ∈ (addCandidates target us seen found).2,
          l.url ∈ (addCandidates target us seen found).1) ∧
       ((addCandidates target us seen found).2.map DiscoveredLink.url).Nodup) := by
  induction us with
  | nil =>
    intro seen found h1 h2 h3
    exact ⟨h1, h2, h3⟩
  | cons u us ih =>
    intro seen found h1 h2 h3
    by_cases hfull : target ≤ found.length
    · simp only [addCandidates, if_pos hfull]
      exact ⟨h1, h2, h3⟩
    · by_cases hseen : u ∈ seen
      · simp only [addCandidates, if_neg hfull, if_pos hseen]
        exact ih seen found h1 h2 h3
      · simp only [addCandidates, if_neg hfull, if_neg hseen]
        apply ih
        · simp only [List.length_append, List.length_singleton]
          omega
        · intro l hl
          rcases List.mem_append.mp hl with hl | hl
          · exact List.mem_cons_of_mem _ (h2 l hl)
          · rw [List.mem_singleton] at hl
            subst hl
            exact List.mem_cons_self _ _
        · simp only [List.map_append, List.map_cons, List.map_nil]
          refine List.Nodup.append h3 (List.nodup_singleton u) ?_
          intro a ha hb
          rw [List.mem_singleton] at hb
          subst hb
          obtain ⟨l, hl, hurl⟩ := List.mem_map.mp ha
          exact hseen (hurl ▸ h2 l hl)

/-- The discovery loop preserves the count bound and the absence of
duplicate URLs, for any fuel, queue and intermediate state. -/
theorem discoverLoop_inv (site : String → Option ListingPage) (target : Nat) :
    ∀ fuel queue seen found, found.length ≤ target →
      (∀ l ∈ found, l.url ∈ seen) →
      ((found.map DiscoveredLink.url).Nodup) →
      ((discoverLoop site target fuel queue seen found).length ≤ target ∧
       ((discoverLoop site target fuel queue seen found).map
          DiscoveredLink.url).Nodup) := by
  intro fuel
  induction fuel with
  | zero =>
    intro queue seen found h1 h2 h3
    exact ⟨h1, h3⟩
  | succ fuel ih =>
    intro queue seen found h1 h2 h3
    cases queue with
    | nil => exact ⟨h1, h3⟩
    | cons p queue =>
      by_cases hfull : target ≤ found.length
      · simp only [discoverLoop, if_pos hfull]
        exact ⟨h1, h3⟩
      · simp only [discoverLoop, if_neg hfull]
        cases hsite : site p with
        | none => exact ih queue seen found h1 h2 h3
        | some page =>
          obtain ⟨g1, g2, g3⟩ :=
            addCandidates_inv target page.articleLinks seen found h1 h2 h3
          exact ih _ _ _ g1 g2 g3

/-- Claim C9 (modelled from the spec, the method body being absent from
the source): for every site behaviour, target count, seed list and page
budget, `find_articles` emits at most `target` DiscoveredLink entries
and never emits the same URL twice within one run. -/
theorem find_articles_bounded_and_nodup (site : String → Option ListingPage)
    (target : Nat) (seeds : List String) (fuel : Nat) :
    (find_articles site target seeds fuel).length ≤ target ∧
    ((find_articles site target seeds fuel).map DiscoveredLink.url).Nodup :=
  discoverLoop_inv site target fuel seeds [] []
    (Nat.zero_le target) (fun l hl => absurd hl (List.not_mem_nil l))
    List.nodup_nil
